import Mathlib

/-!
Verification of the RiskCheck presentation layer (frontend/src) against its
natural-language specification.

Shallow embedding conventions:
- JavaScript strings are Lean `String` values (lists of characters); the
  JavaScript `trim`, `includes` and regex tests used by the sources are
  modelled character-by-character below.
- Stateful submit handlers are modelled as pure functions from the form state
  and the relevant network responses (the environment) to a trace recording
  which requests were issued and what the user was shown.
- Fallible operations (`fetch` wrappers that may throw) return `Except`.
- JSON values and JavaScript truthiness are modelled explicitly for the
  `httpJson` error-path analysis.

Sources embedded: frontend/src/App.jsx (CheckPage), frontend/src/api.js,
frontend/src/pages/ReportScam.jsx.  The backend scoring engine and the
community-report creation handler are not part of the provided sources; the
definitions for those are marked "Modelled from the spec".
-/

/-- Whitespace test used to model the JavaScript `String.prototype.trim`. -/
def isSpaceChar (c : Char) : Bool :=
  c = ' ' || c = '\t' || c = '\n' || c = '\r'

/-- Character-list model of JavaScript `trim`: drop whitespace from both ends. -/
def trimChars (l : List Char) : List Char :=
  List.rdropWhile isSpaceChar (List.dropWhile isSpaceChar l)

/-- JavaScript `s.trim()`. -/
def jsTrim (s : String) : String := String.mk (trimChars s.data)

/-- Boolean test that `pat` occurs at the start of `s` (character lists). -/
def startsWithChars : List Char → List Char → Bool
  | [], _ => true
  | _ :: _, [] => false
  | p :: ps, c :: cs => p == c && startsWithChars ps cs

/-- Model of the App.jsx regex test `/^https?:\/\//i.test(s)`: the string
begins, case-insensitively, with `http://` or `https://`. -/
def startsWithHttpScheme (s : String) : Bool :=
  startsWithChars "http://".data (s.data.map Char.toLower) ||
    startsWithChars "https://".data (s.data.map Char.toLower)

/-- App.jsx `triToBool`: maps a tri-state select value to `true`, `false`, or
JavaScript `null` (here `none`). -/
def triToBool (v : String) : Option Bool :=
  if v = "yes" then some true
  else if v = "no" then some false
  else none

/-- App.jsx `normalizeUrlInput`: trim; keep scheme-prefixed input unchanged;
prefix `https://` when the input looks like a URL (contains a dot or slash);
otherwise return the trimmed input. -/
def normalizeUrlInput (v : String) : String :=
  let s := jsTrim v
  if s = "" then ""
  else if startsWithHttpScheme s then s
  else if s.data.contains '.' || s.data.contains '/' then "https://" ++ s
  else s

/-- A value stored in the App.jsx `evidence` object: the tri-state answers
contribute booleans and `payment_method` contributes a string. -/
inductive EvidenceVal where
  | b (v : Bool)
  | s (v : String)
deriving DecidableEq, Repr

/-- The tri-state answer state of the CheckPage form (one field per
`useState` hook feeding `buildEvidence`). -/
structure EvidenceForm where
  hasAbout : String
  hasReviews : String
  hasAddress : String
  hasPhone : String
  hasWebsite : String
  hasOldPosts : String
  hasRecentPosts : String
  askedAdvance : String
  paymentMethod : String
  locationProvided : String
  sellerAgeVisible : String
  httpsPresent : String
  returnPolicyVisible : String
deriving DecidableEq, Repr

/-- The evidence object as first built by App.jsx `buildEvidence`, before the
`delete` pass: every key is present, with `none` standing for `null`. -/
def buildEvidenceRaw (f : EvidenceForm) : List (String × Option EvidenceVal) :=
  [("has_about", (triToBool f.hasAbout).map EvidenceVal.b),
   ("has_reviews", (triToBool f.hasReviews).map EvidenceVal.b),
   ("has_address", (triToBool f.hasAddress).map EvidenceVal.b),
   ("has_phone_or_email", (triToBool f.hasPhone).map EvidenceVal.b),
   ("has_website", (triToBool f.hasWebsite).map EvidenceVal.b),
   ("has_posts_older_than_6_months", (triToBool f.hasOldPosts).map EvidenceVal.b),
   ("has_recent_posts_last_30_days", (triToBool f.hasRecentPosts).map EvidenceVal.b),
   ("asked_advance_payment", (triToBool f.askedAdvance).map EvidenceVal.b),
   ("payment_method",
     if jsTrim f.paymentMethod = "" then none
     else some (EvidenceVal.s (jsTrim f.paymentMethod))),
   ("location_provided", (triToBool f.locationProvided).map EvidenceVal.b),
   ("seller_age_visible", (triToBool f.sellerAgeVisible).map EvidenceVal.b),
   ("https_present", (triToBool f.httpsPresent).map EvidenceVal.b),
   ("return_policy_visible", (triToBool f.returnPolicyVisible).map EvidenceVal.b)]

/-- The `delete e[k]` pass of `buildEvidence`: keys whose value is `null` are
removed from the object. -/
def evFilter (l : List (String × Option EvidenceVal)) : List (String × EvidenceVal) :=
  l.filterMap fun p => p.2.map fun x => (p.1, x)

/-- App.jsx `buildEvidence`: the evidence mapping actually submitted. -/
def buildEvidence (f : EvidenceForm) : List (String × EvidenceVal) :=
  evFilter (buildEvidenceRaw f)

/-- The tri-state questions of the check form, paired with the evidence key
each one is submitted under (the 12 `triToBool` lines of `buildEvidence`). -/
def checkTriQuestions (f : EvidenceForm) : List (String × String) :=
  [("has_about", f.hasAbout),
   ("has_reviews", f.hasReviews),
   ("has_address", f.hasAddress),
   ("has_phone_or_email", f.hasPhone),
   ("has_website", f.hasWebsite),
   ("has_posts_older_than_6_months", f.hasOldPosts),
   ("has_recent_posts_last_30_days", f.hasRecentPosts),
   ("asked_advance_payment", f.askedAdvance),
   ("location_provided", f.locationProvided),
   ("seller_age_visible", f.sellerAgeVisible),
   ("https_present", f.httpsPresent),
   ("return_policy_visible", f.returnPolicyVisible)]

/-- A JSON value, used to model parsed response bodies in api.js. -/
inductive JsonVal where
  | null
  | bool (b : Bool)
  | num (n : Int)
  | str (s : String)
  | arr (xs : List JsonVal)
  | obj (fields : List (String × JsonVal))

/-- JavaScript truthiness of a JSON value (`undefined` is collapsed into
`null`, which has the same truthiness). -/
def truthy : JsonVal → Bool
  | .null => false
  | .bool b => b
  | .num n => n != 0
  | .str s => s ≠ ""
  | .arr _ => true
  | .obj _ => true

/-- JavaScript property access `data[k]` as used by `httpJson`: a missing
field, or access on a non-object, yields `undefined`, modelled as `null`
(both are falsy and neither is ever returned as a message by `httpJson`). -/
def jsField (data : JsonVal) (k : String) : JsonVal :=
  match data with
  | .obj fs =>
    match fs.lookup k with
    | some v => v
    | none => .null
  | _ => .null

/-- JavaScript `a && b`. -/
def jsAnd (a b : JsonVal) : JsonVal := if truthy a then b else a

/-- JavaScript `a || b`. -/
def jsOr (a b : JsonVal) : JsonVal := if truthy a then a else b

/-- An HTTP response as observed by api.js `httpJson`: the `ok` flag, the
numeric status, the body text (empty on a failed read, matching
`res.text().catch(() => "")`), and the result of `JSON.parse` on that text
(`none` models a parse exception). -/
structure FetchResp where
  ok : Bool
  status : Nat
  text : String
  parsed : Option JsonVal

/-- The `data` local of `httpJson`: `null` for an empty body, the parsed JSON
when parsing succeeds, the raw text otherwise. -/
def computeData (r : FetchResp) : JsonVal :=
  if r.text = "" then .null
  else
    match r.parsed with
    | some v => v
    | none => .str r.text

/-- The ternary `typeof data.detail === "string" ? data.detail : null`. -/
def detailCoerced (data : JsonVal) : JsonVal :=
  match jsField data "detail" with
  | .str s => .str s
  | _ => .null

/-- The `message` expression of `httpJson` for a non-ok response:
`(data && data.detail && (typeof data.detail === "string" ? data.detail : null))
 || (data && data.error) || "HTTP <status>"`. -/
def errMessage (data : JsonVal) (status : Nat) : JsonVal :=
  jsOr (jsAnd (jsAnd data (jsField data "detail")) (detailCoerced data))
    (jsOr (jsAnd data (jsField data "error"))
      (.str ("HTTP " ++ toString status)))

/-- api.js `httpJson`, as a function of the observed response: returns the
body data on an ok response and throws the computed message otherwise. -/
def httpJson (r : FetchResp) : Except JsonVal JsonVal :=
  let data := computeData r
  if r.ok then .ok data else .error (errMessage data r.status)

/-- The JSON body of a successful `POST /api/upload`, shaped by the upload
contract `{sha256, url}`; error bodies may instead carry a `detail` field. -/
structure UploadData where
  sha256 : String
  url : String
  detail : Option String
deriving DecidableEq, Repr

/-- An HTTP response to `POST /api/upload` as observed by api.js
`uploadFile`: `json` is the result of `res.json().catch(() => null)`. -/
structure UploadResp where
  ok : Bool
  status : Nat
  json : Option UploadData
deriving DecidableEq, Repr

/-- The `message` expression of `uploadFile` for a non-ok response:
`(data && data.detail) || "Upload failed (HTTP <status>)"`. -/
def uploadErrorMessage (r : UploadResp) : String :=
  match r.json with
  | some d =>
    match d.detail with
    | some m => if m = "" then "Upload failed (HTTP " ++ toString r.status ++ ")" else m
    | none => "Upload failed (HTTP " ++ toString r.status ++ ")"
  | none => "Upload failed (HTTP " ++ toString r.status ++ ")"

/-- api.js `uploadFile`: throws on any non-ok response, otherwise returns the
parsed body (which is `null`, i.e. `none`, if the body did not parse). -/
def uploadFile (r : UploadResp) : Except String (Option UploadData) :=
  if r.ok then .ok r.json else .error (uploadErrorMessage r)

/-- The arguments api.js hands to `fetch`: target URL and HTTP method. -/
structure FetchArgs where
  url : String
  method : String
deriving DecidableEq, Repr

/-- The `fetch` call made by api.js `httpJson` for a given path and method:
the URL is the configured `API_BASE` followed by the path. -/
def httpJsonFetch (apiBase path method : String) : FetchArgs :=
  { url := apiBase ++ path, method := method }

/-- api.js `createCheck`: `httpJson("/api/check", {method: "POST", ...})`. -/
def createCheckFetch (apiBase : String) : FetchArgs :=
  httpJsonFetch apiBase "/api/check" "POST"

/-- api.js `submitCommunityReport`:
`httpJson("/api/community/report", {method: "POST", ...})`. -/
def submitCommunityReportFetch (apiBase : String) : FetchArgs :=
  httpJsonFetch apiBase "/api/community/report" "POST"

/-- api.js `uploadFile` fetch: `fetch(API_BASE + "/api/upload", {method: "POST", ...})`. -/
def uploadFileFetch (apiBase : String) : FetchArgs :=
  { url := apiBase ++ "/api/upload", method := "POST" }

/-- api.js `reportPdfUrl(id)`. -/
def reportPdfUrl (apiBase : String) (id : Nat) : String :=
  apiBase ++ ("/api/report/" ++ toString id ++ "/pdf")

/-- api.js `fileUrl(sha256)`. -/
def fileUrl (apiBase : String) (sha256 : String) : String :=
  apiBase ++ ("/api/file/" ++ sha256)

/-- An uploaded file; its contents are opaque to the presentation layer. -/
structure FileData where
  name : String
deriving DecidableEq, Repr

/-- A (platform, value) pair from the cross-platform accounts section. -/
structure LinkedAccount where
  platform : String
  value : String
deriving DecidableEq, Repr

/-- JavaScript `s.trim() || null`: the empty trimmed string is falsy. -/
def strOrNull (s : String) : Option String :=
  if jsTrim s = "" then none else some (jsTrim s)

/-- The CheckPage form state feeding `onSubmit` (App.jsx). -/
structure CheckForm where
  platform : String
  entityValue : String
  intent : String
  priceRange : String
  sellerPhone : String
  sellerEmail : String
  sellerWebsite : String
  userContact : String
  checkFile : Option FileData
  linked : List LinkedAccount
  evidenceForm : EvidenceForm
deriving DecidableEq, Repr

/-- App.jsx `linked_accounts` payload field: trim each value, keep entries of
length at least 3. -/
def buildLinked (l : List LinkedAccount) : List LinkedAccount :=
  (l.map fun x => { platform := x.platform, value := jsTrim x.value }).filter
    fun x => 3 ≤ x.value.length

/-- The body of `POST /api/check` as assembled by App.jsx `onSubmit`. -/
structure CheckPayload where
  entity_type : String
  entity_value : String
  intent : Option String
  price_range : Option String
  seller_phone : Option String
  seller_email : Option String
  seller_website : Option String
  user_contact : Option String
  evidence : List (String × EvidenceVal)
  attachment_sha256s : Option (List String)
  linked_accounts : List LinkedAccount
deriving DecidableEq, Repr

/-- The payload App.jsx `onSubmit` builds, given the upload outcome
(`uploaded` is `none` when no upload happened or the body was `null`). -/
def buildCheckPayload (f : CheckForm) (uploaded : Option UploadData) : CheckPayload :=
  { entity_type := f.platform,
    entity_value := normalizeUrlInput f.entityValue,
    intent := strOrNull f.intent,
    price_range := strOrNull f.priceRange,
    seller_phone := strOrNull f.sellerPhone,
    seller_email := strOrNull f.sellerEmail,
    seller_website :=
      (fun w => if w = "" then none else some w) (normalizeUrlInput f.sellerWebsite),
    user_contact := strOrNull f.userContact,
    evidence := buildEvidence f.evidenceForm,
    attachment_sha256s := uploaded.map fun u => [u.sha256],
    linked_accounts := buildLinked f.linked }

/-- App.jsx `validate`: the `errs` object; only the primary identifier is
checked (trimmed length at least 3). -/
def checkValidate (f : CheckForm) : List (String × String) :=
  if (jsTrim f.entityValue).length < 3 then
    [("entityValue", "Required: add a valid link / handle / number.")]
  else []

/-- What one run of the CheckPage `onSubmit` handler did: whether
`uploadFile` was invoked, the payload passed to `createCheck` (`none` when
`createCheck` was never called), and the error message shown. -/
structure CheckSubmitTrace where
  uploadCalled : Bool
  checkPayloadSent : Option CheckPayload
  errorShown : Option String
deriving DecidableEq, Repr

/-- App.jsx CheckPage `onSubmit`, as a function of the form state and the
upload response the environment would return: validation failure returns
before any request; a throwing `uploadFile` prevents the `createCheck` call. -/
def checkOnSubmit (f : CheckForm) (r : UploadResp) : CheckSubmitTrace :=
  if checkValidate f = [] then
    match f.checkFile with
    | none =>
      { uploadCalled := false,
        checkPayloadSent := some (buildCheckPayload f none),
        errorShown := none }
    | some _ =>
      match uploadFile r with
      | .error m =>
        { uploadCalled := true, checkPayloadSent := none, errorShown := some m }
      | .ok u =>
        { uploadCalled := true,
          checkPayloadSent := some (buildCheckPayload f u),
          errorShown := none }
  else
    { uploadCalled := false,
      checkPayloadSent := none,
      errorShown := some "Please fix the highlighted fields and try again." }

/-- The ReportScam form state feeding its `onSubmit` (ReportScam.jsx). -/
structure ReportForm where
  platform : String
  entityValue : String
  category : String
  description : String
  amount : String
  evidenceUrl : String
  reporterContact : String
  file : Option FileData
deriving DecidableEq, Repr

/-- The body of `POST /api/community/report` as assembled by ReportScam.jsx
(`amount` keeps the raw numeral string; the `Number()` coercion carries no
information used by any claim). -/
structure ReportPayload where
  entity_type : String
  entity_value : String
  category : String
  description : String
  amount : Option String
  evidence_url : Option String
  reporter_contact : Option String
  attachment_sha256s : Option (List String)
  linked_accounts : Option (List LinkedAccount)
deriving DecidableEq, Repr

/-- ReportScam.jsx `validate`: the `e` object of field errors. -/
def reportFieldErrors (f : ReportForm) : List (String × String) :=
  (if (jsTrim f.entityValue).length < 3 then
    [("entityValue", "Required: provide a valid link / number / identifier.")]
   else []) ++
  (if (jsTrim f.description).length < 12 then
    [("description", "Required: explain what happened (at least 12 characters).")]
   else [])

/-- ReportScam.jsx `validate` result: true when no field errors. -/
def reportValidate (f : ReportForm) : Bool := reportFieldErrors f = []

/-- The report payload built by ReportScam.jsx `onSubmit`. -/
def buildReportPayload (f : ReportForm) (uploaded : Option UploadData) : ReportPayload :=
  { entity_type := f.platform,
    entity_value := jsTrim f.entityValue,
    category := f.category,
    description := jsTrim f.description,
    amount := if f.amount = "" then none else some f.amount,
    evidence_url := strOrNull f.evidenceUrl,
    reporter_contact := strOrNull f.reporterContact,
    attachment_sha256s := uploaded.map fun u => [u.sha256],
    linked_accounts := none }

/-- The `{id, status}` body answering `POST /api/community/report`. -/
structure ReportResponse where
  id : Nat
  status : String
deriving DecidableEq, Repr

/-- The success banner ReportScam.jsx composes from the response. -/
def successMessage (out : ReportResponse) : String :=
  "Submitted. Report ID #" ++ toString out.id ++ " (status: " ++ out.status ++
    "). It will affect checks after admin approval."

/-- What one run of the ReportScam `onSubmit` handler did. -/
structure ReportSubmitTrace where
  uploadCalled : Bool
  reportPayloadSent : Option ReportPayload
  errorShown : Option String
  successShown : Option String
deriving DecidableEq, Repr

/-- ReportScam.jsx `onSubmit`, as a function of the form state, the upload
response, and the report-creation response the environment would return. -/
def reportOnSubmit (f : ReportForm) (r : UploadResp) (resp : ReportResponse) :
    ReportSubmitTrace :=
  if reportValidate f then
    match f.file with
    | none =>
      { uploadCalled := false,
        reportPayloadSent := some (buildReportPayload f none),
        errorShown := none,
        successShown := some (successMessage resp) }
    | some _ =>
      match uploadFile r with
      | .error m =>
        { uploadCalled := true, reportPayloadSent := none,
          errorShown := some m, successShown := none }
      | .ok u =>
        { uploadCalled := true,
          reportPayloadSent := some (buildReportPayload f u),
          errorShown := none,
          successShown := some (successMessage resp) }
  else
    { uploadCalled := false, reportPayloadSent := none,
      errorShown := some "Please fix the required fields.", successShown := none }

/-- Risk tier of a Signal, also the risk level of a Check. -/
inductive RiskLevel where
  | Low
  | Medium
  | High
  | Unknown
deriving DecidableEq, Repr

/-- Modelled from the spec: severity order of risk tiers used when taking the
maximum tier among Signals (step 5 of the Scoring Engine algorithm); Unknown
carries no risk of its own, so an all-Unknown Signal set stays Unknown. -/
def tierSev : RiskLevel → Nat
  | .Unknown => 0
  | .Low => 1
  | .Medium => 2
  | .High => 3

/-- Modelled from the spec: the higher-severity of two risk tiers. -/
def maxRisk (a b : RiskLevel) : RiskLevel :=
  if tierSev a < tierSev b then b else a

/-- Modelled from the spec: the approved-vs-pending Community Report
aggregate for an entity, as returned by the Community Report Store. -/
structure CommunityAgg where
  approved_count : Nat
  pending_count : Nat
deriving DecidableEq, Repr

/-- Modelled from the spec: step 5 of the Scoring Engine, the maximum tier
among all Signals (the backend Scoring Engine is not in the provided
sources). -/
def signalsRisk (sigs : List RiskLevel) : RiskLevel :=
  sigs.foldl maxRisk .Unknown

/-- Modelled from the spec: step 3 of the Scoring Engine, folding in the
Community Report aggregate — any positive approved count forces the risk
level to at least Medium; the pending count is only surfaced. -/
def foldCommunity (r : RiskLevel) (agg : CommunityAgg) : RiskLevel :=
  if 0 < agg.approved_count then maxRisk r .Medium else r

/-- Modelled from the spec: the risk level of a Check, obtained from the
Signal tiers and the Community Report aggregate. -/
def riskLevel (sigs : List RiskLevel) (agg : CommunityAgg) : RiskLevel :=
  foldCommunity (signalsRisk sigs) agg

/-- A risk level of at least Medium (Medium or High). -/
def riskAtLeastMedium (r : RiskLevel) : Bool :=
  tierSev .Medium ≤ tierSev r

/-- Modelled from the spec: the `{id, status}` response of
`POST /api/community/report`, whose status is always "pending" on creation
(the backend handler is not in the provided sources). -/
def communityReportResponse (newId : Nat) : ReportResponse :=
  { id := newId, status := "pending" }

theorem evFilter_cons_none (k : String) (l : List (String × Option EvidenceVal)) :
    evFilter ((k, none) :: l) = evFilter l := rfl

theorem evFilter_cons_some (k : String) (x : EvidenceVal)
    (l : List (String × Option EvidenceVal)) :
    evFilter ((k, some x) :: l) = (k, x) :: evFilter l := rfl

theorem lookup_evFilter_none (k : String) (l : List (String × Option EvidenceVal))
    (h : l.all (fun p => !(k == p.1)) = true) :
    List.lookup k (evFilter l) = none := by
  induction l with
  | nil => rfl
  | cons hd tl ih =>
    simp only [List.all_cons, Bool.and_eq_true] at h
    obtain ⟨h1, h2⟩ := h
    obtain ⟨k1, v⟩ := hd
    simp only [Bool.not_eq_eq_eq_not, Bool.not_true] at h1
    cases v with
    | none => rw [evFilter_cons_none]; exact ih h2
    | some x =>
      rw [evFilter_cons_some, List.lookup_cons]
      simp only [h1]
      exact ih h2

theorem lookup_evFilter_split (k : String) (pre suf : List (String × Option EvidenceVal))
    (v? : Option EvidenceVal)
    (hpre : pre.all (fun p => !(k == p.1)) = true)
    (hsuf : suf.all (fun p => !(k == p.1)) = true) :
    List.lookup k (evFilter (pre ++ (k, v?) :: suf)) = v? := by
  induction pre with
  | nil =>
    cases v? with
    | none =>
      rw [List.nil_append, evFilter_cons_none]
      exact lookup_evFilter_none k suf hsuf
    | some x =>
      rw [List.nil_append, evFilter_cons_some, List.lookup_cons]
      simp
  | cons hd tl ih =>
    simp only [List.all_cons, Bool.and_eq_true] at hpre
    obtain ⟨h1, h2⟩ := hpre
    obtain ⟨k1, v⟩ := hd
    simp only [Bool.not_eq_eq_eq_not, Bool.not_true] at h1
    cases v with
    | none => rw [List.cons_append, evFilter_cons_none]; exact ih h2
    | some x =>
      rw [List.cons_append, evFilter_cons_some, List.lookup_cons]
      simp only [h1]
      exact ih h2

theorem lookup_buildEvidence_has_about (f : EvidenceForm) :
    List.lookup "has_about" (buildEvidence f) = (triToBool f.hasAbout).map EvidenceVal.b :=
  lookup_evFilter_split "has_about"
    []
    [("has_reviews", (triToBool f.hasReviews).map EvidenceVal.b),
     ("has_address", (triToBool f.hasAddress).map EvidenceVal.b),
     ("has_phone_or_email", (triToBool f.hasPhone).map EvidenceVal.b),
     ("has_website", (triToBool f.hasWebsite).map EvidenceVal.b),
     ("has_posts_older_than_6_months", (triToBool f.hasOldPosts).map EvidenceVal.b),
     ("has_recent_posts_last_30_days", (triToBool f.hasRecentPosts).map EvidenceVal.b),
     ("asked_advance_payment", (triToBool f.askedAdvance).map EvidenceVal.b),
     ("payment_method",
     if jsTrim f.paymentMethod = "" then none
     else some (EvidenceVal.s (jsTrim f.paymentMethod))),
     ("location_provided", (triToBool f.locationProvided).map EvidenceVal.b),
     ("seller_age_visible", (triToBool f.sellerAgeVisible).map EvidenceVal.b),
     ("https_present", (triToBool f.httpsPresent).map EvidenceVal.b),
     ("return_policy_visible", (triToBool f.returnPolicyVisible).map EvidenceVal.b)]
    ((triToBool f.hasAbout).map EvidenceVal.b) rfl rfl

theorem lookup_buildEvidence_has_reviews (f : EvidenceForm) :
    List.lookup "has_reviews" (buildEvidence f) = (triToBool f.hasReviews).map EvidenceVal.b :=
  lookup_evFilter_split "has_reviews"
    [("has_about", (triToBool f.hasAbout).map EvidenceVal.b)]
    [("has_address", (triToBool f.hasAddress).map EvidenceVal.b),
     ("has_phone_or_email", (triToBool f.hasPhone).map EvidenceVal.b),
     ("has_website", (triToBool f.hasWebsite).map EvidenceVal.b),
     ("has_posts_older_than_6_months", (triToBool f.hasOldPosts).map EvidenceVal.b),
     ("has_recent_posts_last_30_days", (triToBool f.hasRecentPosts).map EvidenceVal.b),
     ("asked_advance_payment", (triToBool f.askedAdvance).map EvidenceVal.b),
     ("payment_method",
     if jsTrim f.paymentMethod = "" then none
     else some (EvidenceVal.s (jsTrim f.paymentMethod))),
     ("location_provided", (triToBool f.locationProvided).map EvidenceVal.b),
     ("seller_age_visible", (triToBool f.sellerAgeVisible).map EvidenceVal.b),
     ("https_present", (triToBool f.httpsPresent).map EvidenceVal.b),
     ("return_policy_visible", (triToBool f.returnPolicyVisible).map EvidenceVal.b)]
    ((triToBool f.hasReviews).map EvidenceVal.b) rfl rfl

theorem lookup_buildEvidence_has_address (f : EvidenceForm) :
    List.lookup "has_address" (buildEvidence f) = (triToBool f.hasAddress).map EvidenceVal.b :=
  lookup_evFilter_split "has_address"
    [("has_about", (triToBool f.hasAbout).map EvidenceVal.b),
     ("has_reviews", (triToBool f.hasReviews).map EvidenceVal.b)]
    [("has_phone_or_email", (triToBool f.hasPhone).map EvidenceVal.b),
     ("has_website", (triToBool f.hasWebsite).map EvidenceVal.b),
     ("has_posts_older_than_6_months", (triToBool f.hasOldPosts).map EvidenceVal.b),
     ("has_recent_posts_last_30_days", (triToBool f.hasRecentPosts).map EvidenceVal.b),
     ("asked_advance_payment", (triToBool f.askedAdvance).map EvidenceVal.b),
     ("payment_method",
     if jsTrim f.paymentMethod = "" then none
     else some (EvidenceVal.s (jsTrim f.paymentMethod))),
     ("location_provided", (triToBool f.locationProvided).map EvidenceVal.b),
     ("seller_age_visible", (triToBool f.sellerAgeVisible).map EvidenceVal.b),
     ("https_present", (triToBool f.httpsPresent).map EvidenceVal.b),
     ("return_policy_visible", (triToBool f.returnPolicyVisible).map EvidenceVal.b)]
    ((triToBool f.hasAddress).map EvidenceVal.b) rfl rfl

theorem lookup_buildEvidence_has_phone_or_email (f : EvidenceForm) :
    List.lookup "has_phone_or_email" (buildEvidence f) = (triToBool f.hasPhone).map EvidenceVal.b :=
  lookup_evFilter_split "has_phone_or_email"
    [("has_about", (triToBool f.hasAbout).map EvidenceVal.b),
     ("has_reviews", (triToBool f.hasReviews).map EvidenceVal.b),
     ("has_address", (triToBool f.hasAddress).map EvidenceVal.b)]
    [("has_website", (triToBool f.hasWebsite).map EvidenceVal.b),
     ("has_posts_older_than_6_months", (triToBool f.hasOldPosts).map EvidenceVal.b),
     ("has_recent_posts_last_30_days", (triToBool f.hasRecentPosts).map EvidenceVal.b),
     ("asked_advance_payment", (triToBool f.askedAdvance).map EvidenceVal.b),
     ("payment_method",
     if jsTrim f.paymentMethod = "" then none
     else some (EvidenceVal.s (jsTrim f.paymentMethod))),
     ("location_provided", (triToBool f.locationProvided).map EvidenceVal.b),
     ("seller_age_visible", (triToBool f.sellerAgeVisible).map EvidenceVal.b),
     ("https_present", (triToBool f.httpsPresent).map EvidenceVal.b),
     ("return_policy_visible", (triToBool f.returnPolicyVisible).map EvidenceVal.b)]
    ((triToBool f.hasPhone).map EvidenceVal.b) rfl rfl

theorem lookup_buildEvidence_has_website (f : EvidenceForm) :
    List.lookup "has_website" (buildEvidence f) = (triToBool f.hasWebsite).map EvidenceVal.b :=
  lookup_evFilter_split "has_website"
    [("has_about", (triToBool f.hasAbout).map EvidenceVal.b),
     ("has_reviews", (triToBool f.hasReviews).map EvidenceVal.b),
     ("has_address", (triToBool f.hasAddress).map EvidenceVal.b),
     ("has_phone_or_email", (triToBool f.hasPhone).map EvidenceVal.b)]
    [("has_posts_older_than_6_months", (triToBool f.hasOldPosts).map EvidenceVal.b),
     ("has_recent_posts_last_30_days", (triToBool f.hasRecentPosts).map EvidenceVal.b),
     ("asked_advance_payment", (triToBool f.askedAdvance).map EvidenceVal.b),
     ("payment_method",
     if jsTrim f.paymentMethod = "" then none
     else some (EvidenceVal.s (jsTrim f.paymentMethod))),
     ("location_provided", (triToBool f.locationProvided).map EvidenceVal.b),
     ("seller_age_visible", (triToBool f.sellerAgeVisible).map EvidenceVal.b),
     ("https_present", (triToBool f.httpsPresent).map EvidenceVal.b),
     ("return_policy_visible", (triToBool f.returnPolicyVisible).map EvidenceVal.b)]
    ((triToBool f.hasWebsite).map EvidenceVal.b) rfl rfl

theorem lookup_buildEvidence_has_posts_older_than_6_months (f : EvidenceForm) :
    List.lookup "has_posts_older_than_6_months" (buildEvidence f) = (triToBool f.hasOldPosts).map EvidenceVal.b :=
  lookup_evFilter_split "has_posts_older_than_6_months"
    [("has_about", (triToBool f.hasAbout).map EvidenceVal.b),
     ("has_reviews", (triToBool f.hasReviews).map EvidenceVal.b),
     ("has_address", (triToBool f.hasAddress).map EvidenceVal.b),
     ("has_phone_or_email", (triToBool f.hasPhone).map EvidenceVal.b),
     ("has_website", (triToBool f.hasWebsite).map EvidenceVal.b)]
    [("has_recent_posts_last_30_days", (triToBool f.hasRecentPosts).map EvidenceVal.b),
     ("asked_advance_payment", (triToBool f.askedAdvance).map EvidenceVal.b),
     ("payment_method",
     if jsTrim f.paymentMethod = "" then none
     else some (EvidenceVal.s (jsTrim f.paymentMethod))),
     ("location_provided", (triToBool f.locationProvided).map EvidenceVal.b),
     ("seller_age_visible", (triToBool f.sellerAgeVisible).map EvidenceVal.b),
     ("https_present", (triToBool f.httpsPresent).map EvidenceVal.b),
     ("return_policy_visible", (triToBool f.returnPolicyVisible).map EvidenceVal.b)]
    ((triToBool f.hasOldPosts).map EvidenceVal.b) rfl rfl

theorem lookup_buildEvidence_has_recent_posts_last_30_days (f : EvidenceForm) :
    List.lookup "has_recent_posts_last_30_days" (buildEvidence f) = (triToBool f.hasRecentPosts).map EvidenceVal.b :=
  lookup_evFilter_split "has_recent_posts_last_30_days"
    [("has_about", (triToBool f.hasAbout).map EvidenceVal.b),
     ("has_reviews", (triToBool f.hasReviews).map EvidenceVal.b),
     ("has_address", (triToBool f.hasAddress).map EvidenceVal.b),
     ("has_phone_or_email", (triToBool f.hasPhone).map EvidenceVal.b),
     ("has_website", (triToBool f.hasWebsite).map EvidenceVal.b),
     ("has_posts_older_than_6_months", (triToBool f.hasOldPosts).map EvidenceVal.b)]
    [("asked_advance_payment", (triToBool f.askedAdvance).map EvidenceVal.b),
     ("payment_method",
     if jsTrim f.paymentMethod = "" then none
     else some (EvidenceVal.s (jsTrim f.paymentMethod))),
     ("location_provided", (triToBool f.locationProvided).map EvidenceVal.b),
     ("seller_age_visible", (triToBool f.sellerAgeVisible).map EvidenceVal.b),
     ("https_present", (triToBool f.httpsPresent).map EvidenceVal.b),
     ("return_policy_visible", (triToBool f.returnPolicyVisible).map EvidenceVal.b)]
    ((triToBool f.hasRecentPosts).map EvidenceVal.b) rfl rfl

theorem lookup_buildEvidence_asked_advance_payment (f : EvidenceForm) :
    List.lookup "asked_advance_payment" (buildEvidence f) = (triToBool f.askedAdvance).map EvidenceVal.b :=
  lookup_evFilter_split "asked_advance_payment"
    [("has_about", (triToBool f.hasAbout).map EvidenceVal.b),
     ("has_reviews", (triToBool f.hasReviews).map EvidenceVal.b),
     ("has_address", (triToBool f.hasAddress).map EvidenceVal.b),
     ("has_phone_or_email", (triToBool f.hasPhone).map EvidenceVal.b),
     ("has_website", (triToBool f.hasWebsite).map EvidenceVal.b),
     ("has_posts_older_than_6_months", (triToBool f.hasOldPosts).map EvidenceVal.b),
     ("has_recent_posts_last_30_days", (triToBool f.hasRecentPosts).map EvidenceVal.b)]
    [("payment_method",
     if jsTrim f.paymentMethod = "" then none
     else some (EvidenceVal.s (jsTrim f.paymentMethod))),
     ("location_provided", (triToBool f.locationProvided).map EvidenceVal.b),
     ("seller_age_visible", (triToBool f.sellerAgeVisible).map EvidenceVal.b),
     ("https_present", (triToBool f.httpsPresent).map EvidenceVal.b),
     ("return_policy_visible", (triToBool f.returnPolicyVisible).map EvidenceVal.b)]
    ((triToBool f.askedAdvance).map EvidenceVal.b) rfl rfl

theorem lookup_buildEvidence_location_provided (f : EvidenceForm) :
    List.lookup "location_provided" (buildEvidence f) = (triToBool f.locationProvided).map EvidenceVal.b :=
  lookup_evFilter_split "location_provided"
    [("has_about", (triToBool f.hasAbout).map EvidenceVal.b),
     ("has_reviews", (triToBool f.hasReviews).map EvidenceVal.b),
     ("has_address", (triToBool f.hasAddress).map EvidenceVal.b),
     ("has_phone_or_email", (triToBool f.hasPhone).map EvidenceVal.b),
     ("has_website", (triToBool f.hasWebsite).map EvidenceVal.b),
     ("has_posts_older_than_6_months", (triToBool f.hasOldPosts).map EvidenceVal.b),
     ("has_recent_posts_last_30_days", (triToBool f.hasRecentPosts).map EvidenceVal.b),
     ("asked_advance_payment", (triToBool f.askedAdvance).map EvidenceVal.b),
     ("payment_method",
     if jsTrim f.paymentMethod = "" then none
     else some (EvidenceVal.s (jsTrim f.paymentMethod)))]
    [("seller_age_visible", (triToBool f.sellerAgeVisible).map EvidenceVal.b),
     ("https_present", (triToBool f.httpsPresent).map EvidenceVal.b),
     ("return_policy_visible", (triToBool f.returnPolicyVisible).map EvidenceVal.b)]
    ((triToBool f.locationProvided).map EvidenceVal.b) rfl rfl

theorem lookup_buildEvidence_seller_age_visible (f : EvidenceForm) :
    List.lookup "seller_age_visible" (buildEvidence f) = (triToBool f.sellerAgeVisible).map EvidenceVal.b :=
  lookup_evFilter_split "seller_age_visible"
    [("has_about", (triToBool f.hasAbout).map EvidenceVal.b),
     ("has_reviews", (triToBool f.hasReviews).map EvidenceVal.b),
     ("has_address", (triToBool f.hasAddress).map EvidenceVal.b),
     ("has_phone_or_email", (triToBool f.hasPhone).map EvidenceVal.b),
     ("has_website", (triToBool f.hasWebsite).map EvidenceVal.b),
     ("has_posts_older_than_6_months", (triToBool f.hasOldPosts).map EvidenceVal.b),
     ("has_recent_posts_last_30_days", (triToBool f.hasRecentPosts).map EvidenceVal.b),
     ("asked_advance_payment", (triToBool f.askedAdvance).map EvidenceVal.b),
     ("payment_method",
     if jsTrim f.paymentMethod = "" then none
     else some (EvidenceVal.s (jsTrim f.paymentMethod))),
     ("location_provided", (triToBool f.locationProvided).map EvidenceVal.b)]
    [("https_present", (triToBool f.httpsPresent).map EvidenceVal.b),
     ("return_policy_visible", (triToBool f.returnPolicyVisible).map EvidenceVal.b)]
    ((triToBool f.sellerAgeVisible).map EvidenceVal.b) rfl rfl

theorem lookup_buildEvidence_https_present (f : EvidenceForm) :
    List.lookup "https_present" (buildEvidence f) = (triToBool f.httpsPresent).map EvidenceVal.b :=
  lookup_evFilter_split "https_present"
    [("has_about", (triToBool f.hasAbout).map EvidenceVal.b),
     ("has_reviews", (triToBool f.hasReviews).map EvidenceVal.b),
     ("has_address", (triToBool f.hasAddress).map EvidenceVal.b),
     ("has_phone_or_email", (triToBool f.hasPhone).map EvidenceVal.b),
     ("has_website", (triToBool f.hasWebsite).map EvidenceVal.b),
     ("has_posts_older_than_6_months", (triToBool f.hasOldPosts).map EvidenceVal.b),
     ("has_recent_posts_last_30_days", (triToBool f.hasRecentPosts).map EvidenceVal.b),
     ("asked_advance_payment", (triToBool f.askedAdvance).map EvidenceVal.b),
     ("payment_method",
     if jsTrim f.paymentMethod = "" then none
     else some (EvidenceVal.s (jsTrim f.paymentMethod))),
     ("location_provided", (triToBool f.locationProvided).map EvidenceVal.b),
     ("seller_age_visible", (triToBool f.sellerAgeVisible).map EvidenceVal.b)]
    [("return_policy_visible", (triToBool f.returnPolicyVisible).map EvidenceVal.b)]
    ((triToBool f.httpsPresent).map EvidenceVal.b) rfl rfl

theorem lookup_buildEvidence_return_policy_visible (f : EvidenceForm) :
    List.lookup "return_policy_visible" (buildEvidence f) = (triToBool f.returnPolicyVisible).map EvidenceVal.b :=
  lookup_evFilter_split "return_policy_visible"
    [("has_about", (triToBool f.hasAbout).map EvidenceVal.b),
     ("has_reviews", (triToBool f.hasReviews).map EvidenceVal.b),
     ("has_address", (triToBool f.hasAddress).map EvidenceVal.b),
     ("has_phone_or_email", (triToBool f.hasPhone).map EvidenceVal.b),
     ("has_website", (triToBool f.hasWebsite).map EvidenceVal.b),
     ("has_posts_older_than_6_months", (triToBool f.hasOldPosts).map EvidenceVal.b),
     ("has_recent_posts_last_30_days", (triToBool f.hasRecentPosts).map EvidenceVal.b),
     ("asked_advance_payment", (triToBool f.askedAdvance).map EvidenceVal.b),
     ("payment_method",
     if jsTrim f.paymentMethod = "" then none
     else some (EvidenceVal.s (jsTrim f.paymentMethod))),
     ("location_provided", (triToBool f.locationProvided).map EvidenceVal.b),
     ("seller_age_visible", (triToBool f.sellerAgeVisible).map EvidenceVal.b),
     ("https_present", (triToBool f.httpsPresent).map EvidenceVal.b)]
    []
    ((triToBool f.returnPolicyVisible).map EvidenceVal.b) rfl rfl

theorem triMap_cases (ans : String) :
    ((triToBool ans).map EvidenceVal.b = some (EvidenceVal.b true) ↔ ans = "yes") ∧
    ((triToBool ans).map EvidenceVal.b = some (EvidenceVal.b false) ↔ ans = "no") ∧
    ((triToBool ans).map EvidenceVal.b = none ↔ (ans ≠ "yes" ∧ ans ≠ "no")) := by
  unfold triToBool
  by_cases h1 : ans = "yes" <;> by_cases h2 : ans = "no" <;> simp [h1, h2]

/-- C1: for every tri-state evidence answer on the check form, the submitted
evidence mapping contains the corresponding key with value true exactly when
the answer is "yes", with value false exactly when the answer is "no", and
omits the key for any other answer, so an unanswered or "not sure" question
is never submitted as false. -/
theorem evidence_tristate_faithful (f : EvidenceForm) (key ans : String)
    (h : (key, ans) ∈ checkTriQuestions f) :
    (List.lookup key (buildEvidence f) = some (EvidenceVal.b true) ↔ ans = "yes") ∧
    (List.lookup key (buildEvidence f) = some (EvidenceVal.b false) ↔ ans = "no") ∧
    (List.lookup key (buildEvidence f) = none ↔ (ans ≠ "yes" ∧ ans ≠ "no")) := by
  simp only [checkTriQuestions, List.mem_cons, List.not_mem_nil, or_false,
    Prod.mk.injEq] at h
  rcases h with h | h | h | h | h | h | h | h | h | h | h | h
  · obtain ⟨rfl, rfl⟩ := h
    rw [lookup_buildEvidence_has_about]; exact triMap_cases f.hasAbout
  · obtain ⟨rfl, rfl⟩ := h
    rw [lookup_buildEvidence_has_reviews]; exact triMap_cases f.hasReviews
  · obtain ⟨rfl, rfl⟩ := h
    rw [lookup_buildEvidence_has_address]; exact triMap_cases f.hasAddress
  · obtain ⟨rfl, rfl⟩ := h
    rw [lookup_buildEvidence_has_phone_or_email]; exact triMap_cases f.hasPhone
  · obtain ⟨rfl, rfl⟩ := h
    rw [lookup_buildEvidence_has_website]; exact triMap_cases f.hasWebsite
  · obtain ⟨rfl, rfl⟩ := h
    rw [lookup_buildEvidence_has_posts_older_than_6_months]
    exact triMap_cases f.hasOldPosts
  · obtain ⟨rfl, rfl⟩ := h
    rw [lookup_buildEvidence_has_recent_posts_last_30_days]
    exact triMap_cases f.hasRecentPosts
  · obtain ⟨rfl, rfl⟩ := h
    rw [lookup_buildEvidence_asked_advance_payment]; exact triMap_cases f.askedAdvance
  · obtain ⟨rfl, rfl⟩ := h
    rw [lookup_buildEvidence_location_provided]; exact triMap_cases f.locationProvided
  · obtain ⟨rfl, rfl⟩ := h
    rw [lookup_buildEvidence_seller_age_visible]; exact triMap_cases f.sellerAgeVisible
  · obtain ⟨rfl, rfl⟩ := h
    rw [lookup_buildEvidence_https_present]; exact triMap_cases f.httpsPresent
  · obtain ⟨rfl, rfl⟩ := h
    rw [lookup_buildEvidence_return_policy_visible]
    exact triMap_cases f.returnPolicyVisible

/-- Sample tri-state form state: "about section present" answered yes,
"reviews visible" answered no, everything else left at "Not sure". -/
def sampleEvidenceForm : EvidenceForm :=
  { hasAbout := "yes", hasReviews := "no", hasAddress := "unknown",
    hasPhone := "unknown", hasWebsite := "unknown", hasOldPosts := "unknown",
    hasRecentPosts := "unknown", askedAdvance := "unknown", paymentMethod := "",
    locationProvided := "unknown", sellerAgeVisible := "unknown",
    httpsPresent := "unknown", returnPolicyVisible := "unknown" }

theorem evidence_tristate_faithful_witness :
    (List.lookup "has_about" (buildEvidence sampleEvidenceForm) =
        some (EvidenceVal.b true) ↔ ("yes" : String) = "yes") ∧
    (List.lookup "has_about" (buildEvidence sampleEvidenceForm) =
        some (EvidenceVal.b false) ↔ ("yes" : String) = "no") ∧
    (List.lookup "has_about" (buildEvidence sampleEvidenceForm) = none ↔
      (("yes" : String) ≠ "yes" ∧ ("yes" : String) ≠ "no")) :=
  evidence_tristate_faithful sampleEvidenceForm "has_about" "yes" (by decide)

/-- C2: a community report whose trimmed description is shorter than 12
characters fails validation, and submitCommunityReport (and uploadFile) is
never called: no persistence request is issued. -/
theorem short_report_description_rejected (f : ReportForm) (r : UploadResp)
    (resp : ReportResponse) (h : (jsTrim f.description).length < 12) :
    reportOnSubmit f r resp =
      { uploadCalled := false, reportPayloadSent := none,
        errorShown := some "Please fix the required fields.",
        successShown := none } := by
  have hne : reportFieldErrors f ≠ [] := by
    unfold reportFieldErrors
    rw [if_pos h]
    simp
  unfold reportOnSubmit
  simp [reportValidate, hne]

/-- Report form state with a 5-character description. -/
def sampleShortReportForm : ReportForm :=
  { platform := "facebook", entityValue := "https://facebook.com/someseller",
    category := "advance_payment_fraud", description := "oops!", amount := "",
    evidenceUrl := "", reporterContact := "", file := none }

theorem short_report_description_rejected_witness :
    reportOnSubmit sampleShortReportForm
        { ok := true, status := 200, json := none } { id := 1, status := "pending" } =
      { uploadCalled := false, reportPayloadSent := none,
        errorShown := some "Please fix the required fields.",
        successShown := none } :=
  short_report_description_rejected sampleShortReportForm
    { ok := true, status := 200, json := none } { id := 1, status := "pending" }
    (by decide)

/-- C3: a check submission whose trimmed primary identifier has fewer than 3
characters surfaces a validation error and returns before any network
request: neither uploadFile nor createCheck is invoked. -/
theorem short_check_identifier_rejected (f : CheckForm) (r : UploadResp)
    (h : (jsTrim f.entityValue).length < 3) :
    checkOnSubmit f r =
      { uploadCalled := false, checkPayloadSent := none,
        errorShown := some "Please fix the highlighted fields and try again." } := by
  have hne : checkValidate f ≠ [] := by
    unfold checkValidate
    rw [if_pos h]
    simp
  unfold checkOnSubmit
  simp [hne]

/-- Check form state with a 2-character identifier and a file attached. -/
def sampleShortCheckForm : CheckForm :=
  { platform := "facebook", entityValue := "ab", intent := "", priceRange := "",
    sellerPhone := "", sellerEmail := "", sellerWebsite := "", userContact := "",
    checkFile := some { name := "shot.png" }, linked := [],
    evidenceForm := sampleEvidenceForm }

theorem short_check_identifier_rejected_witness :
    checkOnSubmit sampleShortCheckForm { ok := true, status := 200, json := none } =
      { uploadCalled := false, checkPayloadSent := none,
        errorShown := some "Please fix the highlighted fields and try again." } :=
  short_check_identifier_rejected sampleShortCheckForm
    { ok := true, status := 200, json := none } (by decide)

/-- C5: any positive approved-report count forces the risk level of a Check
to at least Medium regardless of all other Signals, while the pending count
alone never changes the risk level. -/
theorem approved_reports_force_medium (sigs : List RiskLevel) (agg : CommunityAgg) :
    (0 < agg.approved_count → riskAtLeastMedium (riskLevel sigs agg) = true) ∧
    (agg.approved_count = 0 → riskLevel sigs agg = signalsRisk sigs) := by
  constructor
  · intro h
    unfold riskLevel foldCommunity
    rw [if_pos h]
    cases hr : signalsRisk sigs <;> decide
  · intro h
    unfold riskLevel foldCommunity
    rw [if_neg (by omega)]

theorem approved_reports_force_medium_witness :
    riskAtLeastMedium (riskLevel [RiskLevel.Low, RiskLevel.Unknown] ⟨1, 4⟩) = true ∧
    riskLevel [RiskLevel.Low, RiskLevel.Unknown] ⟨0, 4⟩ =
      signalsRisk [RiskLevel.Low, RiskLevel.Unknown] :=
  ⟨(approved_reports_force_medium [RiskLevel.Low, RiskLevel.Unknown] ⟨1, 4⟩).1
      (by decide),
   (approved_reports_force_medium [RiskLevel.Low, RiskLevel.Unknown] ⟨0, 4⟩).2 rfl⟩

/-- C6: a newly created CommunityReport starts Pending — the creation
response always carries status "pending" — and on a successful submission
the report page surfaces the returned id and status verbatim in its success
banner. -/
theorem new_report_pending_and_surfaced (n : Nat) (f : ReportForm) (r : UploadResp)
    (hval : reportValidate f = true) (hfile : f.file = none) :
    (communityReportResponse n).status = "pending" ∧
    (reportOnSubmit f r (communityReportResponse n)).successShown =
      some ("Submitted. Report ID #" ++ toString n ++
        " (status: pending). It will affect checks after admin approval.") := by
  refine ⟨rfl, ?_⟩
  unfold reportOnSubmit
  rw [hval, hfile]
  simp only [if_true, successMessage, communityReportResponse, Option.some.injEq]
  simp only [String.append_assoc]
  rfl

/-- Report form state that passes validation, with no file attached. -/
def sampleReportForm : ReportForm :=
  { platform := "whatsapp", entityValue := "+923001234567",
    category := "advance_payment_fraud",
    description := "Seller asked advance payment via Easypaisa, then blocked me.",
    amount := "25000", evidenceUrl := "", reporterContact := "", file := none }

theorem new_report_pending_and_surfaced_witness :
    (communityReportResponse 7).status = "pending" ∧
    (reportOnSubmit sampleReportForm { ok := true, status := 200, json := none }
        (communityReportResponse 7)).successShown =
      some ("Submitted. Report ID #" ++ toString 7 ++
        " (status: pending). It will affect checks after admin approval.") :=
  new_report_pending_and_surfaced 7 sampleReportForm
    { ok := true, status := 200, json := none } (by decide) rfl

/-- C7: the presentation layer calls exactly the contracted HTTP paths, each
prefixed only by the configured API_BASE: POST /api/check,
POST /api/community/report, POST /api/upload, and the constructed
/api/report/{id}/pdf and /api/file/{hash} URLs. -/
theorem api_paths_contract (base : String) (id : Nat) (sha : String) :
    createCheckFetch base = { url := base ++ "/api/check", method := "POST" } ∧
    submitCommunityReportFetch base =
      { url := base ++ "/api/community/report", method := "POST" } ∧
    uploadFileFetch base = { url := base ++ "/api/upload", method := "POST" } ∧
    reportPdfUrl base id = base ++ ("/api/report/" ++ toString id ++ "/pdf") ∧
    fileUrl base sha = base ++ ("/api/file/" ++ sha) :=
  ⟨rfl, rfl, rfl, rfl, rfl⟩

/-- C8: the check payload field attachment_sha256s is null when no file was
chosen, and otherwise the one-element list holding exactly the sha256
returned by POST /api/upload; uploadFile throws on any non-ok upload
response before createCheck is called, so a hash from a failed upload never
appears in a Check. -/
theorem attachment_hashes_from_upload (f : CheckForm) (r : UploadResp)
    (hval : checkValidate f = []) :
    (f.checkFile = none →
      (checkOnSubmit f r).checkPayloadSent = some (buildCheckPayload f none) ∧
      (buildCheckPayload f none).attachment_sha256s = none) ∧
    (f.checkFile ≠ none → r.ok = false →
      (checkOnSubmit f r).uploadCalled = true ∧
      (checkOnSubmit f r).checkPayloadSent = none) ∧
    (∀ u, f.checkFile ≠ none → r.ok = true → r.json = some u →
      (checkOnSubmit f r).checkPayloadSent = some (buildCheckPayload f (some u)) ∧
      (buildCheckPayload f (some u)).attachment_sha256s = some [u.sha256]) := by
  refine ⟨?_, ?_, ?_⟩
  · intro hf
    unfold checkOnSubmit
    simp [hval, hf, buildCheckPayload]
  · intro hf hok
    obtain ⟨file, hfe⟩ := Option.ne_none_iff_exists'.mp hf
    unfold checkOnSubmit
    simp [hval, hfe, uploadFile, hok]
  · intro u hf hok hj
    unfold checkOnSubmit
    obtain ⟨file, hfe⟩ := Option.ne_none_iff_exists'.mp hf
    simp [hval, hfe, uploadFile, hok, hj, buildCheckPayload]

/-- Check form state that passes validation, with a file attached. -/
def sampleCheckForm : CheckForm :=
  { platform := "website", entityValue := "shop.example.com", intent := "",
    priceRange := "", sellerPhone := "", sellerEmail := "", sellerWebsite := "",
    userContact := "", checkFile := some { name := "ad.png" }, linked := [],
    evidenceForm := sampleEvidenceForm }

theorem attachment_hashes_from_upload_witness :
    (checkOnSubmit sampleCheckForm
        { ok := true, status := 200,
          json := some { sha256 := "d34db33f", url := "/files/d34db33f",
                         detail := none } }).checkPayloadSent =
      some (buildCheckPayload sampleCheckForm
        (some { sha256 := "d34db33f", url := "/files/d34db33f", detail := none })) ∧
    (buildCheckPayload sampleCheckForm
        (some { sha256 := "d34db33f", url := "/files/d34db33f",
                detail := none })).attachment_sha256s = some ["d34db33f"] :=
  (attachment_hashes_from_upload sampleCheckForm
      { ok := true, status := 200,
        json := some { sha256 := "d34db33f", url := "/files/d34db33f",
                       detail := none } } (by decide)).2.2
    { sha256 := "d34db33f", url := "/files/d34db33f", detail := none }
    (by decide) rfl rfl

theorem dropWhile_of_dropWhile_prefix {t u : List Char}
    (hpre : t <+: u) (hu : List.dropWhile isSpaceChar u = u) :
    List.dropWhile isSpaceChar t = t := by
  cases t with
  | nil => rfl
  | cons c cs =>
    obtain ⟨s, hs⟩ := hpre
    have hc : ¬ isSpaceChar c = true := by
      have := List.dropWhile_eq_self_iff.mp hu
      rw [← hs] at this
      simpa using this (by simp)
    rw [List.dropWhile_cons, if_neg hc]

theorem trimChars_idem (l : List Char) : trimChars (trimChars l) = trimChars l := by
  unfold trimChars
  have hA : List.dropWhile isSpaceChar
      (List.rdropWhile isSpaceChar (List.dropWhile isSpaceChar l)) =
      List.rdropWhile isSpaceChar (List.dropWhile isSpaceChar l) :=
    dropWhile_of_dropWhile_prefix (List.rdropWhile_prefix _ _)
      (List.dropWhile_idempotent _ _)
  rw [hA, List.rdropWhile_idempotent]

theorem dropWhile_of_trimmed {l : List Char} (h : trimChars l = l) :
    List.dropWhile isSpaceChar l = l := by
  have hlen : (List.dropWhile isSpaceChar l).length = l.length := by
    have h1 : (trimChars l).length ≤ (List.dropWhile isSpaceChar l).length :=
      (List.rdropWhile_prefix _ _).length_le
    have h2 : (List.dropWhile isSpaceChar l).length ≤ l.length :=
      (List.dropWhile_suffix _).length_le
    rw [h] at h1
    omega
  exact (List.dropWhile_suffix _).eq_of_length hlen

theorem rdropWhile_of_trimmed {l : List Char} (h : trimChars l = l) :
    List.rdropWhile isSpaceChar l = l := by
  have := dropWhile_of_trimmed h
  unfold trimChars at h
  rwa [this] at h

theorem trimChars_https_append {t : List Char}
    (hr : List.rdropWhile isSpaceChar t = t) (hne : t ≠ []) :
    trimChars ("https://".data ++ t) = "https://".data ++ t := by
  unfold trimChars
  have h1 : List.dropWhile isSpaceChar ("https://".data ++ t) = "https://".data ++ t := by
    show List.dropWhile isSpaceChar ('h' :: ("ttps://".data ++ t)) = _
    rw [List.dropWhile_cons, if_neg (by decide)]
    rfl
  rw [h1]
  rw [List.rdropWhile_eq_self_iff]
  intro hl
  rw [List.getLast_append' _ _ hne]
  exact List.rdropWhile_eq_self_iff.mp hr hne

theorem jsTrim_idem (v : String) : jsTrim (jsTrim v) = jsTrim v :=
  congrArg String.mk (trimChars_idem v.data)

theorem jsTrim_https_append {s : String} (h : jsTrim s = s) (hne : s ≠ "") :
    jsTrim ("https://" ++ s) = "https://" ++ s := by
  have hdata : trimChars s.data = s.data := congrArg String.data h
  have hnedata : s.data ≠ [] := fun he => hne (congrArg String.mk he)
  have hd : ("https://" ++ s).data = "https://".data ++ s.data := String.data_append _ _
  calc jsTrim ("https://" ++ s)
      = String.mk (trimChars ("https://".data ++ s.data)) := by rw [jsTrim, hd]
    _ = String.mk ("https://".data ++ s.data) :=
        congrArg String.mk (trimChars_https_append (rdropWhile_of_trimmed hdata) hnedata)
    _ = "https://" ++ s := by rw [← hd]

theorem startsWithChars_self_append (p x : List Char) :
    startsWithChars p (p ++ x) = true := by
  induction p with
  | nil => rfl
  | cons a as ih => simp [startsWithChars, ih]

theorem scheme_https_append (s : String) :
    startsWithHttpScheme ("https://" ++ s) = true := by
  unfold startsWithHttpScheme
  rw [String.data_append, List.map_append]
  have hlow : List.map Char.toLower "https://".data = "https://".data := by decide
  rw [hlow, startsWithChars_self_append]
  simp

theorem normalizeUrlInput_eq (v : String) :
    normalizeUrlInput v =
      (if jsTrim v = "" then ""
       else if startsWithHttpScheme (jsTrim v) then jsTrim v
       else if (jsTrim v).data.contains '.' || (jsTrim v).data.contains '/' then
         "https://" ++ jsTrim v
       else jsTrim v) := rfl

/-- C4: the entity_value and seller_website submitted with a Check go
through normalizeUrlInput, which returns a trimmed scheme-prefixed input
unchanged, prefixes https:// to any other trimmed input containing a dot or
slash, and returns every remaining input as its trimmed self. -/
theorem normalize_url_branches (v : String) (f : CheckForm) (u : Option UploadData) :
    (startsWithHttpScheme (jsTrim v) = true → normalizeUrlInput v = jsTrim v) ∧
    (startsWithHttpScheme (jsTrim v) = false →
      ((jsTrim v).data.contains '.' || (jsTrim v).data.contains '/') = true →
      normalizeUrlInput v = "https://" ++ jsTrim v) ∧
    (startsWithHttpScheme (jsTrim v) = false →
      ((jsTrim v).data.contains '.' || (jsTrim v).data.contains '/') = false →
      normalizeUrlInput v = jsTrim v) ∧
    (buildCheckPayload f u).entity_value = normalizeUrlInput f.entityValue ∧
    (buildCheckPayload f u).seller_website =
      (if normalizeUrlInput f.sellerWebsite = "" then none
       else some (normalizeUrlInput f.sellerWebsite)) := by
  refine ⟨?_, ?_, ?_, rfl, rfl⟩
  · intro h1
    by_cases h0 : jsTrim v = ""
    · rw [h0] at h1
      exact absurd h1 (by decide)
    · rw [normalizeUrlInput_eq, if_neg h0, if_pos h1]
  · intro h1 h2
    by_cases h0 : jsTrim v = ""
    · rw [h0] at h2
      exact absurd h2 (by decide)
    · rw [normalizeUrlInput_eq, if_neg h0, if_neg (by rw [h1]; exact Bool.false_ne_true),
        if_pos h2]
  · intro h1 h2
    by_cases h0 : jsTrim v = ""
    · rw [normalizeUrlInput_eq, if_pos h0, h0]
    · rw [normalizeUrlInput_eq, if_neg h0, if_neg (by rw [h1]; exact Bool.false_ne_true),
        if_neg (by rw [h2]; exact Bool.false_ne_true)]

theorem normalize_url_branches_witness :
    normalizeUrlInput " example.com " = "https://" ++ jsTrim " example.com " :=
  (normalize_url_branches " example.com " sampleCheckForm none).2.1
    (by decide) (by decide)

/-- C9: normalizeUrlInput is idempotent — normalizing an already-normalized
identifier never double-prefixes a scheme or otherwise changes it. -/
theorem normalizeUrlInput_idem (v : String) :
    normalizeUrlInput (normalizeUrlInput v) = normalizeUrlInput v := by
  by_cases h0 : jsTrim v = ""
  · have hv : normalizeUrlInput v = "" := by
      rw [normalizeUrlInput_eq, if_pos h0]
    rw [hv]
    rfl
  · by_cases h1 : startsWithHttpScheme (jsTrim v) = true
    · have hv : normalizeUrlInput v = jsTrim v := by
        rw [normalizeUrlInput_eq, if_neg h0, if_pos h1]
      rw [hv, normalizeUrlInput_eq, jsTrim_idem v, if_neg h0, if_pos h1]
    · by_cases h2 : ((jsTrim v).data.contains '.' || (jsTrim v).data.contains '/') = true
      · have hv : normalizeUrlInput v = "https://" ++ jsTrim v := by
          rw [normalizeUrlInput_eq, if_neg h0, if_neg h1, if_pos h2]
        have htrim : jsTrim ("https://" ++ jsTrim v) = "https://" ++ jsTrim v :=
          jsTrim_https_append (jsTrim_idem v) h0
        have hscheme : startsWithHttpScheme ("https://" ++ jsTrim v) = true :=
          scheme_https_append (jsTrim v)
        have hne : ("https://" ++ jsTrim v) ≠ "" := by
          intro he
          have hdat := congrArg String.data he
          rw [String.data_append] at hdat
          simp at hdat
        rw [hv, normalizeUrlInput_eq, htrim, if_neg hne, if_pos hscheme]
      · have hv : normalizeUrlInput v = jsTrim v := by
          rw [normalizeUrlInput_eq, if_neg h0, if_neg h1, if_neg h2]
        rw [hv, normalizeUrlInput_eq, jsTrim_idem v, if_neg h0, if_neg h1, if_neg h2]

/-- Stated from the claim words, for comparison with the code: the thrown
message is the detail field if that field is a string, otherwise the error
field if present, otherwise "HTTP <status>". -/
def claimedMessage (data : JsonVal) (status : Nat) : JsonVal :=
  match data with
  | .obj fs =>
    match fs.lookup "detail" with
    | some (.str s) => .str s
    | _ =>
      match fs.lookup "error" with
      | some v => v
      | none => .str ("HTTP " ++ toString status)
  | _ => .str ("HTTP " ++ toString status)

/-- The fallback of the amended message rule: the error field when present
and truthy, otherwise "HTTP <status>". -/
def errorFallback (fs : List (String × JsonVal)) (status : Nat) : JsonVal :=
  match fs.lookup "error" with
  | some v => if truthy v then v else .str ("HTTP " ++ toString status)
  | none => .str ("HTTP " ++ toString status)

/-- The message rule the code actually implements, stated directly: the
detail field when it is a non-empty string, otherwise the error field when
present and truthy, otherwise "HTTP <status>". -/
def amendedMessage (data : JsonVal) (status : Nat) : JsonVal :=
  match data with
  | .obj fs =>
    match fs.lookup "detail" with
    | some (.str s) => if s ≠ "" then .str s else errorFallback fs status
    | _ => errorFallback fs status
  | _ => .str ("HTTP " ++ toString status)

theorem jsOr_field_http (fs : List (String × JsonVal)) (st : Nat) :
    jsOr (jsField (.obj fs) "error") (.str ("HTTP " ++ toString st)) =
      errorFallback fs st := by
  cases he : fs.lookup "error" with
  | none => simp [jsField, he, jsOr, truthy, errorFallback]
  | some v => simp [jsField, he, jsOr, errorFallback]

theorem errMessage_eq_amended (data : JsonVal) (st : Nat) :
    errMessage data st = amendedMessage data st := by
  cases data with
  | obj fs =>
    have hor := jsOr_field_http fs st
    cases hd : fs.lookup "detail" with
    | none =>
      simp only [errMessage, amendedMessage, detailCoerced, jsField, hd]
      simpa [jsAnd, jsOr, truthy] using hor
    | some v =>
      cases v with
      | str s =>
        by_cases hs : s = ""
        · subst hs
          simp only [errMessage, amendedMessage, detailCoerced, jsField, hd]
          simpa [jsAnd, jsOr, truthy] using hor
        · simp only [errMessage, amendedMessage, detailCoerced, jsField, hd]
          simp [jsAnd, jsOr, truthy, hs]
      | null =>
        simp only [errMessage, amendedMessage, detailCoerced, jsField, hd]
        simpa [jsAnd, jsOr, truthy] using hor
      | bool b =>
        cases b <;>
          · simp only [errMessage, amendedMessage, detailCoerced, jsField, hd]
            simpa [jsAnd, jsOr, truthy] using hor
      | num n =>
        by_cases hn : n = 0
        · subst hn
          simp only [errMessage, amendedMessage, detailCoerced, jsField, hd]
          simpa [jsAnd, jsOr, truthy] using hor
        · simp only [errMessage, amendedMessage, detailCoerced, jsField, hd]
          simpa [jsAnd, jsOr, truthy, hn] using hor
      | arr xs =>
        simp only [errMessage, amendedMessage, detailCoerced, jsField, hd]
        simpa [jsAnd, jsOr, truthy] using hor
      | obj gs =>
        simp only [errMessage, amendedMessage, detailCoerced, jsField, hd]
        simpa [jsAnd, jsOr, truthy] using hor
  | null => rfl
  | bool b => cases b <;> rfl
  | num n =>
    by_cases hn : n = 0
    · subst hn; rfl
    · simp [errMessage, amendedMessage, detailCoerced, jsField, jsAnd, jsOr, truthy, hn]
  | str s =>
    by_cases hs : s = ""
    · subst hs; rfl
    · simp [errMessage, amendedMessage, detailCoerced, jsField, jsAnd, jsOr, truthy, hs]
  | arr xs =>
    simp [errMessage, amendedMessage, detailCoerced, jsField, jsAnd, jsOr, truthy]

/-- C10 counterexample: a non-ok response whose body has a detail field that
is the empty string — the claim says the thrown message is that detail
string, but the code falls through the falsy detail to "HTTP 500". -/
theorem httpJson_detail_claim_cex :
    httpJson { ok := false, status := 500, text := "\x7b\"detail\": \"\"\x7d",
               parsed := some (.obj [("detail", .str "")]) } =
      .error (.str "HTTP 500") ∧
    claimedMessage (.obj [("detail", .str "")]) 500 = .str "" ∧
    JsonVal.str "HTTP 500" ≠ JsonVal.str "" := by
  refine ⟨rfl, rfl, ?_⟩
  intro h
  injection h with h2
  exact absurd h2 (by decide)

/-- C10 (amended): for every ok response httpJson returns the body data
(null if the body is empty, the parsed JSON if parsing succeeds, the raw
text otherwise) and never throws; for every non-ok response it throws an
Error whose message is the body detail field when that field is a non-empty
string, otherwise the body error field when present and truthy, otherwise
"HTTP <status>". -/
theorem httpJson_behaviour (r : FetchResp) :
    (r.ok = true → r.text = "" → httpJson r = .ok .null) ∧
    (r.ok = true → ∀ v, r.text ≠ "" → r.parsed = some v → httpJson r = .ok v) ∧
    (r.ok = true → r.text ≠ "" → r.parsed = none → httpJson r = .ok (.str r.text)) ∧
    (r.ok = false → httpJson r = .error (amendedMessage (computeData r) r.status)) := by
  refine ⟨?_, ?_, ?_, ?_⟩
  · intro hok ht
    simp [httpJson, hok, computeData, ht]
  · intro hok v ht hp
    simp [httpJson, hok, computeData, ht, hp]
  · intro hok ht hp
    simp [httpJson, hok, computeData, ht, hp]
  · intro hok
    simp [httpJson, hok, errMessage_eq_amended]

theorem httpJson_behaviour_witness :
    httpJson { ok := true, status := 200, text := "", parsed := none } =
      .ok JsonVal.null :=
  (httpJson_behaviour { ok := true, status := 200, text := "", parsed := none }).1
    rfl rfl
